import Mathlib

/-!
Shallow embedding of the download engine in `src/lib/libalpm/dload.c`
(pacman's libalpm download code) and proofs about it.

Modelling conventions:
* `struct dload_payload` becomes the `Payload` structure; `char *` fields that
  the C code may leave NULL become `Option String`, numeric `off_t`/`long`
  fields become `Int`, C flag ints become `Bool`.
* The curl library, filesystem and libc calls are oracles supplied through
  environment records (`Fs`, `CurlEnv`, `MultiEnv`, `FetchEnv`).  Side effects
  (unlink, rename, ftruncate, utimes) are recorded in an action trace, and
  invocations of the front end download callback `handle->dlcb` are recorded
  in an event trace, so theorems can talk about what the engine did.
* `dload_interrupted`, the file-scope interrupt flag, is passed and returned
  explicitly (0 = clear, `ABORT_SIGINT` = 1, `ABORT_OVER_MAXFILESIZE` = 2).
* Memory allocation (MALLOC/STRDUP) is modelled as always succeeding.
-/

/-- Error kinds surfaced on the alpm handle (`pm_errno`), restricted to the
ones `dload.c` can set. -/
inductive AlpmErr
  | ok
  | memory
  | server_bad_url
  | server_none
  | retrieve
  | libcurl
  | system
  | ext_download
  deriving DecidableEq

/-- The curl result codes distinguished by `dload.c`'s switch statements; every
code other than the named ones lands in the `default:` branch, modelled by
`otherError`. -/
inductive CURLcode
  | ok
  | abortedByCallback
  | couldntResolveHost
  | filesizeExceeded
  | otherError
  deriving DecidableEq

/-- An invocation of the front end download callback `handle->dlcb`. -/
inductive Event
  | evInit (name : String) (optional : Bool)
  | evProgress (name : String) (downloaded total : Int)
  | evCompleted (name : String) (total : Int) (result : Int)
  deriving DecidableEq

/-- Filesystem / stream side effects performed by the engine.  `truncateLocal`
and `rewindLocal` act on the payload's open stream `payload->localf`. -/
inductive FsAction
  | unlinkFile (path : String)
  | renameFile (src dst : String)
  | truncateLocal
  | rewindLocal
  | utimesFile (path : String) (t : Int)
  deriving DecidableEq

/-- `enum { ABORT_SIGINT = 1, ABORT_OVER_MAXFILESIZE }`. -/
def ABORT_SIGINT : Nat := 1

/-- Second member of the abort enum. -/
def ABORT_OVER_MAXFILESIZE : Nat := 2

/-- `struct dload_payload` (declared in dload.h, used throughout dload.c).
`localf` records whether `payload->localf` holds an open stream. -/
structure Payload where
  fileurl : Option String := none
  filepath : Option String := none
  servers : List String := []
  remote_name : Option String := none
  tempfile_name : Option String := none
  destfile_name : Option String := none
  content_disp_name : Option String := none
  tempfile_openmode : String := ""
  initial_size : Int := 0
  prevprogress : Int := 0
  max_size : Int := 0
  respcode : Int := 0
  allow_resume : Bool := false
  force : Bool := false
  trust_remote_name : Bool := false
  errors_ok : Bool := false
  signature : Bool := false
  unlink_on_fail : Bool := false
  localf : Bool := false
  deriving DecidableEq

/-- Result of `stat`/`fstat` on a path: size and mtime. -/
structure FileInfo where
  size : Int
  mtime : Int
  deriving DecidableEq

/-- The filesystem as seen through `stat`: `none` means the call fails. -/
def Fs : Type := String → Option FileInfo

/-- `stat` on a possibly-NULL path (a NULL pointer never stats successfully). -/
def statOpt (fs : Fs) : Option String → Option FileInfo
  | some path => fs path
  | none => none

/-- `get_filename`: `strrchr(url, '/')` then step past it; if the URL has no
slash the whole URL is the filename. -/
def get_filename (url : String) : String :=
  String.mk ((url.data.reverse.takeWhile (fun c => c ≠ '/')).reverse)

/-- `get_fullpath(path, filename, suffix)`: `snprintf("%s%s%s", ...)`. -/
def get_fullpath (path filename suffix : String) : String :=
  path ++ filename ++ suffix

/-- Scan a character list for the first occurrence of `//` (C `strstr`) and
return what follows it. -/
def dropThroughDoubleSlash : List Char → Option (List Char)
  | '/' :: '/' :: rest => some rest
  | _ :: rest => dropThroughDoubleSlash rest
  | [] => none

/-- Index of the last `'@'` in a character list, if any. -/
def lastAtSign : List Char → Option Nat
  | [] => none
  | c :: rest =>
    match lastAtSign rest with
    | some i => some (i + 1)
    | none => if c = '@' then some 0 else none

/-- The `user:pass@` stripping loop of `curl_gethost`: it scans from the right
for an `'@'` strictly after the first character and keeps what follows it. -/
def stripUserinfo (host : List Char) : List Char :=
  match lastAtSign host with
  | some k => if 1 ≤ k then host.drop (k + 1) else host
  | none => host

/-- RFC1123 hostname buffer size used by the drivers. -/
def HOSTNAME_SIZE : Nat := 256

/-- `curl_gethost(url, buffer, 256)`: `file://` URLs yield the literal "disk";
otherwise take the span after the first `//` up to the next `/`, strip any
`user:pass@` prefix, and fail if there is no `//` or the host exceeds 255
bytes.  `none` models the nonzero error return. -/
def curl_gethost (url : String) : Option String :=
  if url.data.take 7 = ("file://").data then
    some "disk"
  else
    match dropThroughDoubleSlash url.data with
    | none => none
    | some p =>
      let host := stripUserinfo (p.takeWhile (fun c => c ≠ '/'))
      if host.length > HOSTNAME_SIZE - 1 then none
      else some (String.mk host)

/-- `utimes_long(path, seconds)`: a no-op when `seconds == -1`. -/
def utimes_long (path : Option String) (seconds : Int) : List FsAction :=
  if seconds ≠ -1 then
    match path with
    | some p => [FsAction.utimesFile p seconds]
    | none => []
  else []

/-- Outcome of one invocation of the progress sink `dload_progress_cb`:
its return value to curl, the interrupt flag afterwards, the payload
afterwards (`prevprogress` may move), and any PROGRESS event emitted. -/
structure ProgressOut where
  result : Int
  interrupted : Nat
  payload : Payload
  events : List Event
  deriving DecidableEq

/-- `dload_progress_cb(file, dltotal, dlnow, ...)`.  `dlcbPresent` models
`payload->handle->dlcb != NULL`; `interrupted` is the value of the global
`dload_interrupted` on entry. -/
def dload_progress_cb (dlcbPresent : Bool) (interrupted : Nat) (payload : Payload)
    (dltotal dlnow : Int) : ProgressOut :=
  -- do not print signature files progress bar
  if payload.signature then ⟨0, interrupted, payload, []⟩
  -- avoid displaying progress bar for redirects with a body
  else if payload.respcode ≥ 300 then ⟨0, interrupted, payload, []⟩
  -- SIGINT sent, abort by alerting curl
  else if interrupted ≠ 0 then ⟨1, interrupted, payload, []⟩
  -- bogus values : stop here
  else if dlnow < 0 ∨ dltotal ≤ 0 ∨ dlnow > dltotal then ⟨0, interrupted, payload, []⟩
  else
    let current_size := payload.initial_size + dlnow
    -- is our filesize still under any set limit?
    if payload.max_size ≠ 0 ∧ current_size > payload.max_size then
      ⟨1, ABORT_OVER_MAXFILESIZE, payload, []⟩
    -- none of what follows matters if the front end has no callback
    else if !dlcbPresent then ⟨0, interrupted, payload, []⟩
    else
      let total_size := payload.initial_size + dltotal
      if payload.prevprogress = total_size then ⟨0, interrupted, payload, []⟩
      else
        ⟨0, interrupted, { payload with prevprogress := current_size },
          [Event.evProgress (payload.remote_name.getD "") dlnow dltotal]⟩

/-- The curl options whose values depend on the payload (the remaining
`curl_easy_setopt` calls in `curl_set_handle_opts` pass constants). -/
structure CurlOpts where
  url : Option String := none
  maxFilesize : Option Int := none
  timecondMtime : Option Int := none
  resumeFrom : Option Int := none
  deriving DecidableEq

/-- `curl_set_handle_opts(payload, curl, error_buffer)`: resets the handle,
sets the fixed options, then evaluates the resume/freshness policy, possibly
switching the open mode to "ab" and recording `initial_size`. -/
def curl_set_handle_opts (fs : Fs) (p : Payload) : Payload × CurlOpts :=
  let opts : CurlOpts :=
    { url := p.fileurl
      maxFilesize := if p.max_size ≠ 0 then some p.max_size else none }
  if !p.allow_resume && !p.force && p.destfile_name.isSome &&
      (statOpt fs p.destfile_name).isSome then
    -- start from scratch, but only download if our local is out of date.
    (p, { opts with timecondMtime := (statOpt fs p.destfile_name).map (fun st => st.mtime) })
  else
    match statOpt fs p.tempfile_name, p.allow_resume with
    | some st, true =>
      -- a previous partial download exists, resume from end of file.
      ({ p with tempfile_openmode := "ab", initial_size := st.size },
        { opts with resumeFrom := some st.size })
    | _, _ => (p, opts)

/-- `create_tempfile(payload, localpath)`: makes `<localpath>alpmtmp.XXXXXX`
with `mkstemp`, chmods and reopens it.  `ok` collapses the three libc failure
cases (mkstemp/fchmod/fdopen) into one oracle; `suffix` stands for the random
characters chosen by `mkstemp`.  On success the payload's `tempfile_name` and
`remote_name` (tail of the random path) are replaced and a stream is open. -/
def create_tempfile (ok : Bool) (suffix : String) (p : Payload) (localpath : String) :
    Option Payload :=
  let randpath := localpath ++ "alpmtmp." ++ suffix
  if !ok then none
  else
    some { p with tempfile_name := some randpath,
                  remote_name := some (get_filename randpath) }

/-- The post-transfer information queried from curl with `curl_easy_getinfo`.
`remote_size` and `bytes_dl` use the C code's `-1` "unknown" sentinel. -/
structure TransferInfo where
  remote_time : Int := -1
  remote_size : Int := -1
  bytes_dl : Int := 0
  timecond : Int := 0
  effective_url : String := ""
  deriving DecidableEq

/-- Oracle for one run of the single-transfer driver: what the filesystem,
`curl_easy_perform` and the callbacks it triggers would do.  `respcodeAfter`,
`contentDispAfter` and `prevprogressAfter` are the payload fields that the
header and progress callbacks may have mutated by the time `perform`
returns; `interruptedAfter` is `dload_interrupted` at that moment (it was
cleared to 0 just before the transfer). -/
structure CurlEnv where
  fs : Fs
  interrupted0 : Nat := 0
  tempfileOk : Bool := true
  tempfileSuffix : String := "r01234"
  fopenOk : Bool := true
  performResult : CURLcode := CURLcode.ok
  interruptedAfter : Nat := 0
  respcodeAfter : Int := 0
  contentDispAfter : Option String := none
  prevprogressAfter : Int := 0
  info : TransferInfo := {}
  fstatLocalfSize : Option Int := none
  renameOk : Bool := true

/-- Result of the single-transfer driver `curl_download_internal`. -/
structure DriverOut where
  payload : Payload
  result : Int
  pmErr : AlpmErr
  final_file : Option String := none
  final_url : Option String := none
  events : List Event := []
  actions : List FsAction := []
  performed : Bool := false
  raisedSigint : Bool := false
  deriving DecidableEq

/-- The state carried into the `cleanup:` label of `curl_download_internal`. -/
structure CleanupIn where
  payload : Payload
  ret : Int
  pmErr : AlpmErr
  localfOpen : Bool
  interrupted : Nat
  remote_time : Int := -1
  bytes_dl : Int := 0
  renameOk : Bool := true
  final_url : Option String := none
  events : List Event := []
  actions : List FsAction := []
  performed : Bool := false

/-- The `cleanup:` tail of `curl_download_internal`: close and touch the
tempfile, rename on success and derive `final_file`, unlink the tempfile on
an unlinkable failure, restore signals (re-raising SIGINT if interrupted),
and emit DOWNLOAD_COMPLETED — unconditionally, with no signature check. -/
def curl_download_cleanup (c : CleanupIn) : DriverOut :=
  let acts1 := c.actions ++
    (if c.localfOpen then utimes_long c.payload.tempfile_name c.remote_time else [])
  let rename_step : Int × Option String × List FsAction :=
    if c.ret = 0 then
      match c.payload.destfile_name with
      | some d =>
        let racts := [FsAction.renameFile (c.payload.tempfile_name.getD "") d]
        if c.renameOk then (0, some (get_filename d), racts)
        else (-1, none, racts)
      | none => (0, some (get_filename (c.payload.tempfile_name.getD "")), [])
    else (c.ret, none, [])
  let ret1 := rename_step.1
  let acts2 := acts1 ++ rename_step.2.2
  let acts3 :=
    if (ret1 = -1 ∨ c.interrupted ≠ 0) ∧ c.payload.unlink_on_fail ∧
        c.payload.tempfile_name.isSome then
      acts2 ++ [FsAction.unlinkFile (c.payload.tempfile_name.getD "")]
    else acts2
  { payload := c.payload
    result := ret1
    pmErr := c.pmErr
    final_file := rename_step.2.1
    final_url := c.final_url
    events := c.events ++
      [Event.evCompleted (c.payload.remote_name.getD "") c.bytes_dl ret1]
    actions := acts3
    performed := c.performed
    raisedSigint := c.interrupted = ABORT_SIGINT }

/-- `payload->trust_remote_name` refactoring of `destfile_name` shared by both
drivers: prefer the Content-Disposition name; otherwise the tail of the
effective (post-redirect) URL when it has at least two characters past the
slash and differs from the current destination tail. -/
def remote_name_refactor (localpath : String) (effective_url : String) (p : Payload) :
    Payload :=
  if p.trust_remote_name then
    match p.content_disp_name with
    | some cd =>
      -- content-disposition header has a better name for our file
      { p with destfile_name := some (get_fullpath localpath (get_filename cd) "") }
    | none =>
      if effective_url.data.contains '/' then
        let eff := (effective_url.data.reverse.takeWhile (fun c => c ≠ '/')).reverse
        -- strlen(strrchr(effective_url, '/')) > 2
        if eff.length + 1 > 2 then
          let effName := String.mk eff
          match p.destfile_name with
          | none => { p with destfile_name := some (get_fullpath localpath effName "") }
          | some d =>
            if effName ≠ get_filename d then
              { p with destfile_name := some (get_fullpath localpath effName "") }
            else p
        else p
      else p
  else p

/-- The part of `curl_download_internal` from `curl_set_handle_opts` to the
end (lines 410-606): short-circuit a complete `.part`, open the tempfile,
clear the interrupt flag, emit DOWNLOAD_INIT, perform the transfer, classify
the curl result and finalize via `curl_download_cleanup`. -/
def curl_download_transfer (env : CurlEnv) (localpath : String) (p0 : Payload)
    (localfOpen : Bool) (pmErr : AlpmErr) : DriverOut :=
  let p := (curl_set_handle_opts env.fs p0).1
  if p.max_size = p.initial_size ∧ p.max_size ≠ 0 then
    -- .part file is complete
    curl_download_cleanup
      { payload := p, ret := 0, pmErr := pmErr,
        localfOpen := localfOpen, interrupted := env.interrupted0,
        renameOk := env.renameOk }
  else if !localfOpen && !env.fopenOk then
    curl_download_cleanup
      { payload := p, ret := -1, pmErr := AlpmErr.retrieve,
        localfOpen := false, interrupted := env.interrupted0,
        renameOk := env.renameOk }
  else
    -- signals masked, dload_interrupted = 0, DOWNLOAD_INIT, curl_easy_perform
    let evs := [Event.evInit (p.remote_name.getD "") false]
    let curlerr := env.performResult
    let p := { p with respcode := env.respcodeAfter,
                      content_disp_name := env.contentDispAfter,
                      prevprogress := env.prevprogressAfter }
    let interrupted := env.interruptedAfter
    match curlerr with
    | CURLcode.ok =>
      if p.respcode ≥ 400 then
        let p := { p with unlink_on_fail := true }
        let pmErr := if !p.errors_ok then AlpmErr.retrieve else pmErr
        curl_download_cleanup
          { payload := p, ret := -1, pmErr := pmErr,
            localfOpen := true, interrupted := interrupted, renameOk := env.renameOk,
            events := evs, performed := true }
      else
        -- retrieve info about the state of the transfer
        let info := env.info
        let final_url := some info.effective_url
        if info.timecond = 1 ∧ info.bytes_dl = 0 then
          -- time condition was met and we didn't download anything
          curl_download_cleanup
            { payload := p, ret := 1, pmErr := pmErr,
              localfOpen := true, interrupted := interrupted,
              remote_time := info.remote_time, bytes_dl := info.bytes_dl,
              renameOk := env.renameOk, final_url := final_url, events := evs,
              actions := [FsAction.unlinkFile (p.tempfile_name.getD "")],
              performed := true }
        else if info.remote_size ≠ -1 ∧ info.bytes_dl ≠ -1 ∧
            info.bytes_dl ≠ info.remote_size then
          -- truncated transfer
          curl_download_cleanup
            { payload := p, ret := -1, pmErr := AlpmErr.retrieve,
              localfOpen := true, interrupted := interrupted,
              remote_time := info.remote_time, bytes_dl := info.bytes_dl,
              renameOk := env.renameOk, final_url := final_url, events := evs,
              performed := true }
        else
          let p := remote_name_refactor localpath info.effective_url p
          curl_download_cleanup
            { payload := p, ret := 0, pmErr := pmErr,
              localfOpen := true, interrupted := interrupted,
              remote_time := info.remote_time, bytes_dl := info.bytes_dl,
              renameOk := env.renameOk, final_url := final_url, events := evs,
              performed := true }
    | CURLcode.abortedByCallback =>
      if interrupted = ABORT_OVER_MAXFILESIZE then
        -- curlerr = CURLE_FILESIZE_EXCEEDED
        curl_download_cleanup
          { payload := { p with unlink_on_fail := true },
            ret := -1, pmErr := AlpmErr.libcurl, localfOpen := true,
            interrupted := interrupted, renameOk := env.renameOk, events := evs,
            performed := true }
      else
        curl_download_cleanup
          { payload := p, ret := -1, pmErr := pmErr,
            localfOpen := true, interrupted := interrupted, renameOk := env.renameOk,
            events := evs, performed := true }
    | CURLcode.couldntResolveHost =>
      curl_download_cleanup
        { payload := { p with unlink_on_fail := true },
          ret := -1, pmErr := AlpmErr.server_bad_url, localfOpen := true,
          interrupted := interrupted, renameOk := env.renameOk, events := evs,
          performed := true }
    | CURLcode.filesizeExceeded | CURLcode.otherError =>
      -- delete zero length downloads
      let p := if env.fstatLocalfSize = some 0 then { p with unlink_on_fail := true }
               else p
      let pmErr := if !p.errors_ok then AlpmErr.libcurl else pmErr
      curl_download_cleanup
        { payload := p, ret := -1, pmErr := pmErr,
          localfOpen := true, interrupted := interrupted, renameOk := env.renameOk,
          events := evs, performed := true }

/-- `curl_download_internal(payload, localpath, final_file, final_url)`:
clears `pm_errno` and the name fields, derives `remote_name`, validates the
host, picks destination/temp names (or a random tempfile for empty or ".sig"
names), then hands over to the transfer phase. -/
def curl_download_internal (env : CurlEnv) (localpath : String) (payload0 : Payload) :
    DriverOut :=
  let pmErr := AlpmErr.ok
  let p := { payload0 with tempfile_name := none, destfile_name := none,
                           content_disp_name := none, tempfile_openmode := "wb" }
  let p := match p.remote_name with
           | none => { p with remote_name := some (get_filename (p.fileurl.getD "")) }
           | some _ => p
  match curl_gethost (p.fileurl.getD "") with
  | none =>
    -- url is invalid: RET_ERR(handle, ALPM_ERR_SERVER_BAD_URL, -1)
    { payload := p, result := -1, pmErr := AlpmErr.server_bad_url }
  | some _ =>
    let rn := p.remote_name.getD ""
    if rn.length > 0 ∧ rn ≠ ".sig" then
      let p := { p with destfile_name := some (get_fullpath localpath rn ""),
                        tempfile_name := some (get_fullpath localpath rn ".part") }
      curl_download_transfer env localpath p false pmErr
    else
      -- URL doesn't contain a usable filename, so make a tempfile
      let p := { p with unlink_on_fail := true }
      match create_tempfile env.tempfileOk env.tempfileSuffix p localpath with
      | none =>
        curl_download_cleanup
          { payload := p, ret := -1, pmErr := pmErr,
            localfOpen := false, interrupted := env.interrupted0,
            renameOk := env.renameOk }
      | some p1 => curl_download_transfer env localpath p1 true pmErr

/-- Result of `curl_multi_retry_next_server`: the mutated payload, the int
return (0 = retry started, -1 = no retry), a `pm_errno` write if `RET_ERR`
fired, the stream actions taken, and whether the handle was re-added to the
multiplexer. -/
structure RetryOut where
  payload : Payload
  result : Int
  pmErr : Option AlpmErr := none
  actions : List FsAction := []
  readded : Bool := false

/-- `curl_multi_retry_next_server(curlm, curl, payload)`: advance the servers
cursor (this happens before the emptiness check, so the cursor moves even
when no mirror is left); with a mirror remaining, rebuild `fileurl` as
`<server>/<filepath>`, truncate and rewind the open stream when
`unlink_on_fail` is set (an `ftruncate` failure is
`RET_ERR(ALPM_ERR_SYSTEM, -1)`), and re-add the handle. -/
def curl_multi_retry_next_server (ftruncateOk : Bool) (p0 : Payload) : RetryOut :=
  -- "payload->servers = payload->servers->next; if(!payload->servers) return -1"
  -- is rendered by matching on the shape of the list: the cursor advances to
  -- the tail in every case, and the retry goes ahead only if the tail has a
  -- head.
  match p0.servers with
  | [] => { payload := { p0 with servers := [] }, result := -1 }
  | [_] => { payload := { p0 with servers := [] }, result := -1 }
  | _ :: server :: rest =>
    -- regenerate a new fileurl
    let p := { p0 with servers := server :: rest,
                       fileurl := some (server ++ "/" ++ p0.filepath.getD "") }
    if p0.unlink_on_fail then
      -- we keep the file for a new retry but remove its data if any
      if !ftruncateOk then
        { payload := p, result := -1, pmErr := some AlpmErr.system }
      else
        { payload := p, result := 0,
          actions := [FsAction.truncateLocal, FsAction.rewindLocal], readded := true }
    else
      { payload := p, result := 0, readded := true }

/-- Oracle for the parallel driver, analogous to `CurlEnv`: `interrupted` is
the global flag when the completion message is examined. -/
structure MultiEnv where
  fs : Fs := fun _ => none
  interrupted : Nat := 0
  info : TransferInfo := {}
  fstatLocalfSize : Option Int := none
  ftruncateOk : Bool := true
  renameOk : Bool := true
  fopenOk : Bool := true
  tempfileOk : Bool := true
  tempfileSuffix : String := "r01234"

/-- Result of `curl_multi_check_finished_download`. -/
structure MultiOut where
  payload : Payload
  result : Int
  pmErr : AlpmErr
  events : List Event := []
  actions : List FsAction := []
  readded : Bool := false
  removed : Bool := false
  deriving DecidableEq

/-- The `cleanup:` tail of `curl_multi_check_finished_download`: close and
touch the tempfile, rename on success, unlink an unlinkable failure's
tempfile, emit DOWNLOAD_COMPLETED unless this is a signature payload, remove
the handle, free `fileurl`, and downgrade -1 to -2 for optional payloads. -/
def cmcfd_cleanup (env : MultiEnv) (p0 : Payload) (ret0 : Int) (pmErr : AlpmErr)
    (bytes_dl remote_time : Int) (events0 : List Event) (actions0 : List FsAction) :
    MultiOut :=
  let acts1 := actions0 ++
    (if p0.localf then utimes_long p0.tempfile_name remote_time else [])
  let rename_step : Int × List FsAction :=
    if ret0 = 0 then
      match p0.destfile_name with
      | some d =>
        let racts := [FsAction.renameFile (p0.tempfile_name.getD "") d]
        if env.renameOk then (0, racts) else (-1, racts)
      | none => (0, [])
    else (ret0, [])
  let ret1 := rename_step.1
  let acts2 := acts1 ++ rename_step.2
  let acts3 :=
    if (ret1 = -1 ∨ env.interrupted ≠ 0) ∧ p0.unlink_on_fail ∧
        p0.tempfile_name.isSome then
      acts2 ++ [FsAction.unlinkFile (p0.tempfile_name.getD "")]
    else acts2
  let events1 :=
    if !p0.signature then
      events0 ++ [Event.evCompleted (p0.remote_name.getD "") bytes_dl ret1]
    else events0
  let p := { p0 with fileurl := none }
  let ret2 := if ret1 = -1 ∧ p.errors_ok then -2 else ret1
  { payload := p, result := ret2, pmErr := pmErr, events := events1,
    actions := acts3, removed := true }

/-- The post-switch part of `curl_multi_check_finished_download` reached when
curl reported CURLE_OK with a response below 400: query the transfer state,
handle the met time condition, the truncation check, and the
`trust_remote_name` refactoring. -/
def cmcfd_proceed (env : MultiEnv) (localpath : String) (pmErr : AlpmErr)
    (p : Payload) : MultiOut :=
  let info := env.info
  if info.timecond = 1 ∧ info.bytes_dl = 0 then
    -- time condition was met and we didn't download anything
    cmcfd_cleanup env p 1 pmErr info.bytes_dl info.remote_time []
      [FsAction.unlinkFile (p.tempfile_name.getD "")]
  else if info.remote_size ≠ -1 ∧ info.bytes_dl ≠ -1 ∧
      info.bytes_dl ≠ info.remote_size then
    -- truncated transfer: GOTO_ERR(handle, ALPM_ERR_RETRIEVE, cleanup)
    cmcfd_cleanup env p (-1) AlpmErr.retrieve info.bytes_dl info.remote_time [] []
  else
    cmcfd_cleanup env (remote_name_refactor localpath info.effective_url p) 0 pmErr
      info.bytes_dl info.remote_time [] []

/-- Shared failover step of `curl_multi_check_finished_download`: try the next
server; on success return 2 directly (no cleanup, the slot stays busy),
otherwise fall through to cleanup with the error recorded so far.  On the
error paths the local `bytes_dl` still holds its initializer 0 and
`remote_time` its initializer -1. -/
def cmcfd_retry_or_cleanup (env : MultiEnv) (p : Payload) (pmErr : AlpmErr) :
    MultiOut :=
  let r := curl_multi_retry_next_server env.ftruncateOk p
  if r.result = 0 then
    { payload := r.payload, result := 2, pmErr := r.pmErr.getD pmErr,
      actions := r.actions, readded := r.readded }
  else
    cmcfd_cleanup env r.payload (-1) (r.pmErr.getD pmErr) 0 (-1) [] r.actions

/-- `curl_multi_check_finished_download(curlm, msg, localpath)`: classify the
curl completion message for the payload recovered from the handle, fail over
to the next mirror on retryable errors (HTTP >= 400, unresolved host, other
transport errors), and finalize otherwise.  `pmErr0` is `handle->pm_errno` on
entry and `curlerr` is `msg->data.result`. -/
def curl_multi_check_finished_download (env : MultiEnv) (localpath : String)
    (pmErr0 : AlpmErr) (curlerr : CURLcode) (p0 : Payload) : MultiOut :=
  match curlerr with
  | CURLcode.ok =>
    if p0.respcode ≥ 400 then
      let p := { p0 with unlink_on_fail := true }
      let pmErr := if !p.errors_ok then AlpmErr.retrieve else pmErr0
      cmcfd_retry_or_cleanup env p pmErr
    else
      cmcfd_proceed env localpath pmErr0 p0
  | CURLcode.abortedByCallback =>
    if env.interrupted = ABORT_OVER_MAXFILESIZE then
      -- curlerr = CURLE_FILESIZE_EXCEEDED
      cmcfd_cleanup env { p0 with unlink_on_fail := true } (-1) AlpmErr.libcurl
        0 (-1) [] []
    else
      cmcfd_cleanup env p0 (-1) pmErr0 0 (-1) [] []
  | CURLcode.couldntResolveHost =>
    let p := { p0 with unlink_on_fail := true }
    cmcfd_retry_or_cleanup env p AlpmErr.server_bad_url
  | CURLcode.filesizeExceeded | CURLcode.otherError =>
    -- delete zero length downloads
    let p := if env.fstatLocalfSize = some 0 then { p0 with unlink_on_fail := true }
             else p0
    let pmErr := if !p.errors_ok then AlpmErr.libcurl else pmErr0
    cmcfd_retry_or_cleanup env p pmErr

/-- Result of `curl_multi_add_payload`: the int return (0 = transfer started
or `.part` already complete, -1 = setup failure), and whether the handle was
actually added to the multiplexer. -/
structure AddOut where
  payload : Payload
  result : Int
  pmErr : AlpmErr
  added : Bool := false

/-- The `cleanup:` tail of `curl_multi_add_payload`: frees the four name
fields and destroys the easy handle. -/
def curl_multi_add_cleanup (p : Payload) (ret : Int) (pmErr : AlpmErr) : AddOut :=
  { payload := { p with fileurl := none, tempfile_name := none,
                        destfile_name := none, content_disp_name := none },
    result := ret, pmErr := pmErr }

/-- The part of `curl_multi_add_payload` from `curl_set_handle_opts` on
(lines 894-920): short-circuit a complete `.part` (which still goes through
the freeing cleanup, with ret 0), open the tempfile, add the handle. -/
def curl_multi_add_finish (env : MultiEnv) (pmErr0 : AlpmErr) (p0 : Payload) :
    AddOut :=
  let p := (curl_set_handle_opts env.fs p0).1
  if p.max_size = p.initial_size ∧ p.max_size ≠ 0 then
    -- .part file is complete
    curl_multi_add_cleanup p 0 pmErr0
  else if !p.localf && !env.fopenOk then
    curl_multi_add_cleanup p (-1) AlpmErr.retrieve
  else
    ({ payload := { p with localf := true }, result := 0, pmErr := pmErr0,
       added := true } : AddOut)

/-- `curl_multi_add_payload(handle, curlm, payload, localpath)`: build the
fileurl from the current server, derive names (unlike the single driver
there is no special case for ".sig" here), configure the handle and add it
to the multiplexer. -/
def curl_multi_add_payload (env : MultiEnv) (localpath : String) (pmErr0 : AlpmErr)
    (p0 : Payload) : AddOut :=
  match p0.servers with
  | [] =>
    -- ASSERT(payload->servers, RET_ERR(handle, ALPM_ERR_SERVER_NONE, -1))
    { payload := p0, result := -1, pmErr := AlpmErr.server_none }
  | server :: _ =>
    let p := { p0 with
      fileurl := some (server ++ "/" ++ p0.filepath.getD ""),
      tempfile_openmode := "wb" }
    let p := match p.remote_name with
             | none => { p with remote_name := some (get_filename (p.fileurl.getD "")) }
             | some _ => p
    match curl_gethost (p.fileurl.getD "") with
    | none =>
      -- url is invalid: GOTO_ERR(handle, ALPM_ERR_SERVER_BAD_URL, cleanup)
      curl_multi_add_cleanup p (-1) AlpmErr.server_bad_url
    | some _ =>
      if (p.remote_name.getD "").length > 0 then
        let rn := p.remote_name.getD ""
        let p := { p with destfile_name := some (get_fullpath localpath rn ""),
                          tempfile_name := some (get_fullpath localpath rn ".part") }
        curl_multi_add_finish env pmErr0 p
      else
        -- URL doesn't contain a filename, so make a tempfile
        let p := { p with unlink_on_fail := true }
        match create_tempfile env.tempfileOk env.tempfileSuffix p localpath with
        | none => curl_multi_add_cleanup p (-1) pmErr0
        | some p1 => curl_multi_add_finish env pmErr0 { p1 with localf := true }

/-- `filecache_find_url(handle, url)`: take the basename after the last
slash of the URL (failing when there is no slash or the basename is empty)
and look it up in the package cache; `cache` is the opaque
`_alpm_filecache_find`. -/
def filecache_find_url (cache : String → Option String) (url : String) :
    Option String :=
  if url.data.contains '/' then
    let filebase := (url.data.reverse.takeWhile (fun c => c ≠ '/')).reverse
    if filebase = [] then none
    else cache (String.mk filebase)
  else none

/-- What `_alpm_download` reports back to `alpm_fetch_pkgurl`: the int return,
`*final_file` (basename actually written) and `*final_url` (post-redirect
effective URL). -/
structure DlOutcome where
  ret : Int
  final_file : Option String := none
  final_url : Option String := none

/-- Environment of `alpm_fetch_pkgurl`: the opaque cache lookup
`_alpm_filecache_find` (the cache directory resolver is outside dload.c and
consumed as an opaque operation), the `_alpm_download` engine as an oracle,
and the two signature-policy bits of `handle->siglevel`. -/
structure FetchEnv where
  cache : String → Option String
  download : Payload → DlOutcome
  sig_package : Bool := false
  sig_package_optional : Bool := false

/-- Result of `alpm_fetch_pkgurl`: the returned cache path (NULL = `none`)
and the payloads handed to `_alpm_download`, in order. -/
structure FetchOut where
  result : Option String
  downloads : List Payload := []

/-- The signature block of `alpm_fetch_pkgurl` (lines 1124-1157): entered
only when the package download returned 0, produced an effective URL, and
`ALPM_SIG_PACKAGE` is set; when the `.sig` sibling is not already cached it
builds the signature payload (on the record zeroed by
`_alpm_dload_payload_reset`) and downloads it, ignoring the result except
for logging.  Returns the signature payloads handed to `_alpm_download`. -/
def alpm_fetch_pkgurl_sig (env : FetchEnv) (ret : Int) (final_pkg_url : Option String) :
    List Payload :=
  if ret = 0 then
    match final_pkg_url with
    | none => []
    | some u =>
      if env.sig_package then
        let sigurl := u ++ ".sig"
        match filecache_find_url env.cache sigurl with
        | some _ => []
        | none =>
          [{ fileurl := some sigurl, signature := true, trust_remote_name := true,
             force := true, errors_ok := env.sig_package_optional,
             max_size := 16 * 1024 }]
      else []
  else []

/-- `alpm_fetch_pkgurl(handle, url)`: consult the cache by URL basename; on a
miss download the package with `allow_resume=1, trust_remote_name=1`, then
conditionally fetch the detached signature, and finally look the written
basename up in the cache again.  The cache is modelled as one immutable
lookup oracle; the download's effect of adding the file to the cache
directory is part of that oracle. -/
def alpm_fetch_pkgurl (env : FetchEnv) (url : String) : FetchOut :=
  match filecache_find_url env.cache url with
  | some filepath =>
    -- cache hit: ret stays 0 and final_pkg_url stays NULL, so the signature
    -- block's guard is never satisfied and no download happens
    { result := some filepath }
  | none =>
    let payload : Payload :=
      { fileurl := some url, allow_resume := true, trust_remote_name := true }
    let dl := env.download payload
    if dl.ret = -1 then
      -- failed to download url: return NULL
      { result := none, downloads := [payload] }
    else
      let sigs := alpm_fetch_pkgurl_sig env dl.ret dl.final_url
      -- we should be able to find the file the second time around
      { result := dl.final_file.bind env.cache, downloads := payload :: sigs }

/-- `_alpm_dload_payload_reset`: frees every owned string and zeroes the
record. -/
def _alpm_dload_payload_reset (_p : Payload) : Payload := {}

/-- `_alpm_dload_payload_reset_for_retry`: frees `fileurl` and `filepath`,
folds `prevprogress` into `initial_size`, zeroes `prevprogress`, clears
`unlink_on_fail`, and touches nothing else. -/
def _alpm_dload_payload_reset_for_retry (p : Payload) : Payload :=
  { p with fileurl := none, filepath := none,
           initial_size := p.initial_size + p.prevprogress,
           prevprogress := 0, unlink_on_fail := false }

/-! ### Frame lemmas on the building blocks -/

theorem statOpt_isSome {fs : Fs} {o : Option String} {st : FileInfo}
    (h : statOpt fs o = some st) : o.isSome := by
  cases o with
  | none => simp [statOpt] at h
  | some path => rfl

theorem curl_set_handle_opts_shape (fs : Fs) (p : Payload) :
    ∃ m i, (curl_set_handle_opts fs p).1 =
      { p with tempfile_openmode := m, initial_size := i } := by
  unfold curl_set_handle_opts
  repeat' split
  all_goals exact ⟨_, _, rfl⟩

theorem curl_multi_retry_next_server_shape (ok : Bool) (p : Payload) :
    ∃ u, (curl_multi_retry_next_server ok p).payload =
      { p with servers := p.servers.tail, fileurl := u } := by
  rcases hs : p.servers with _ | ⟨a, _ | ⟨b, rest⟩⟩ <;>
    simp only [curl_multi_retry_next_server, hs, List.tail_nil, List.tail_cons] <;>
    repeat' split
  all_goals exact ⟨_, rfl⟩

theorem remote_name_refactor_shape (lp eu : String) (p : Payload) :
    ∃ d, remote_name_refactor lp eu p = { p with destfile_name := d } := by
  unfold remote_name_refactor
  dsimp only
  repeat' split
  all_goals exact ⟨_, rfl⟩

theorem cmcfd_cleanup_payload (env : MultiEnv) (p : Payload) (r : Int) (pe : AlpmErr)
    (b t : Int) (evs : List Event) (acts : List FsAction) :
    (cmcfd_cleanup env p r pe b t evs acts).payload = { p with fileurl := none } := rfl

theorem cmcfd_cleanup_pmErr (env : MultiEnv) (p : Payload) (r : Int) (pe : AlpmErr)
    (b t : Int) (evs : List Event) (acts : List FsAction) :
    (cmcfd_cleanup env p r pe b t evs acts).pmErr = pe := rfl

theorem list_mem_ite {α : Type} {q : Prop} [Decidable q] {x : α} {A B : List α} :
    (x ∈ if q then A else B) ↔ ((q ∧ x ∈ A) ∨ (¬ q ∧ x ∈ B)) := by
  by_cases h : q <;> simp [h]

theorem utimes_long_no_rename (path : Option String) (t : Int) (s d : String) :
    FsAction.renameFile s d ∉ utimes_long path t := by
  unfold utimes_long
  split
  · cases path <;> simp
  · simp

theorem utimes_long_no_unlink (path : Option String) (t : Int) (f : String) :
    FsAction.unlinkFile f ∉ utimes_long path t := by
  unfold utimes_long
  split
  · cases path <;> simp
  · simp

theorem curl_download_cleanup_ret0 (c : CleanupIn) (h : c.ret = 0)
    (hren : c.renameOk = true) : (curl_download_cleanup c).result = 0 := by
  unfold curl_download_cleanup
  cases hd : c.payload.destfile_name <;> simp [h, hd, hren]

theorem curl_download_cleanup_performed (c : CleanupIn) :
    (curl_download_cleanup c).performed = c.performed := rfl

theorem curl_download_cleanup_ret1 (c : CleanupIn) (h : c.ret = 1) :
    (curl_download_cleanup c).result = 1 := by
  unfold curl_download_cleanup
  simp [h]

theorem curl_download_cleanup_no_rename (c : CleanupIn) (s d : String)
    (h : c.ret = 1) (hacts : FsAction.renameFile s d ∉ c.actions) :
    FsAction.renameFile s d ∉ (curl_download_cleanup c).actions := by
  have hut := utimes_long_no_rename c.payload.tempfile_name c.remote_time s d
  unfold curl_download_cleanup
  repeat' split
  all_goals simp_all [List.mem_append, list_mem_ite]

theorem curl_download_cleanup_unlink_kept (c : CleanupIn) (f : String)
    (hacts : FsAction.unlinkFile f ∈ c.actions) :
    FsAction.unlinkFile f ∈ (curl_download_cleanup c).actions := by
  unfold curl_download_cleanup
  cases htn : c.payload.tempfile_name
  all_goals repeat' split
  all_goals simp_all [List.mem_append, list_mem_ite]

/-! ### Claim theorems -/

/-- C10: `_alpm_dload_payload_reset_for_retry` frees exactly `fileurl` and
`filepath`, adds `prevprogress` to `initial_size`, zeroes `prevprogress`,
clears `unlink_on_fail`, and leaves every other field of the payload
(`remote_name`, `tempfile_name`, `destfile_name`, `content_disp_name`,
`max_size`, `respcode`, the servers list, the open mode, the open stream and
all policy flags) unchanged. -/
theorem C10_reset_for_retry_frame (p : Payload) :
    (_alpm_dload_payload_reset_for_retry p).fileurl = none ∧
    (_alpm_dload_payload_reset_for_retry p).filepath = none ∧
    (_alpm_dload_payload_reset_for_retry p).initial_size =
      p.initial_size + p.prevprogress ∧
    (_alpm_dload_payload_reset_for_retry p).prevprogress = 0 ∧
    (_alpm_dload_payload_reset_for_retry p).unlink_on_fail = false ∧
    (_alpm_dload_payload_reset_for_retry p).servers = p.servers ∧
    (_alpm_dload_payload_reset_for_retry p).remote_name = p.remote_name ∧
    (_alpm_dload_payload_reset_for_retry p).tempfile_name = p.tempfile_name ∧
    (_alpm_dload_payload_reset_for_retry p).destfile_name = p.destfile_name ∧
    (_alpm_dload_payload_reset_for_retry p).content_disp_name =
      p.content_disp_name ∧
    (_alpm_dload_payload_reset_for_retry p).tempfile_openmode =
      p.tempfile_openmode ∧
    (_alpm_dload_payload_reset_for_retry p).max_size = p.max_size ∧
    (_alpm_dload_payload_reset_for_retry p).respcode = p.respcode ∧
    (_alpm_dload_payload_reset_for_retry p).allow_resume = p.allow_resume ∧
    (_alpm_dload_payload_reset_for_retry p).force = p.force ∧
    (_alpm_dload_payload_reset_for_retry p).trust_remote_name =
      p.trust_remote_name ∧
    (_alpm_dload_payload_reset_for_retry p).errors_ok = p.errors_ok ∧
    (_alpm_dload_payload_reset_for_retry p).signature = p.signature ∧
    (_alpm_dload_payload_reset_for_retry p).localf = p.localf :=
  ⟨rfl, rfl, rfl, rfl, rfl, rfl, rfl, rfl, rfl, rfl, rfl, rfl, rfl, rfl, rfl,
   rfl, rfl, rfl, rfl⟩

/-- C9: when the basename of the requested URL is already in the file cache,
`alpm_fetch_pkgurl` returns the cached path and hands no payload at all to
`_alpm_download` — in particular no signature download happens either, even
when `ALPM_SIG_PACKAGE` is set, because `final_pkg_url` stays NULL on this
path. -/
theorem C9_cache_hit (env : FetchEnv) (url path : String)
    (h : filecache_find_url env.cache url = some path) :
    (alpm_fetch_pkgurl env url).result = some path ∧
    (alpm_fetch_pkgurl env url).downloads = [] := by
  unfold alpm_fetch_pkgurl
  rw [h]
  exact ⟨rfl, rfl⟩

/-- Witness for C9 at a concrete cache and URL, with the signature policy
bit set. -/
theorem C9_cache_hit_witness :
    (alpm_fetch_pkgurl
      { cache := fun s => if s = "p.pkg" then some "/c/p.pkg" else none,
        download := fun _ => { ret := -1 }, sig_package := true }
      "https://m/p.pkg").result = some "/c/p.pkg" ∧
    (alpm_fetch_pkgurl
      { cache := fun s => if s = "p.pkg" then some "/c/p.pkg" else none,
        download := fun _ => { ret := -1 }, sig_package := true }
      "https://m/p.pkg").downloads = [] :=
  C9_cache_hit _ "https://m/p.pkg" "/c/p.pkg" (by decide)

/-- C1 counterexample: the claim demands the over-max-size abort "whatever
value dl_total has", but the bogus-values guard runs first: with
`dl_total = 0` (size not yet known) the sink returns 0 and leaves the
interrupt flag clear even though `signature = false`, `respcode < 300`, the
interrupt flag is clear, `max_size > 0` and
`initial_size + dl_now > max_size`. -/
theorem C1_counterexample :
    (({ respcode := 200, max_size := 3 } : Payload).signature = false ∧
     ({ respcode := 200, max_size := 3 } : Payload).respcode < 300 ∧
     0 < ({ respcode := 200, max_size := 3 } : Payload).max_size ∧
     ({ respcode := 200, max_size := 3 } : Payload).max_size <
       ({ respcode := 200, max_size := 3 } : Payload).initial_size + 5) ∧
    ¬((dload_progress_cb true 0 { respcode := 200, max_size := 3 } 0 5).result = 1 ∧
      (dload_progress_cb true 0 { respcode := 200, max_size := 3 } 0 5).interrupted =
        ABORT_OVER_MAXFILESIZE) := by
  decide

/-- C1 (amended): for a payload with `signature = false`, `respcode < 300`
and the interrupt flag clear, and progress values that pass the bogus-values
guard (`0 ≤ dl_now ≤ dl_total`, `0 < dl_total`), if `max_size > 0` and
`initial_size + dl_now > max_size` then the progress sink sets the interrupt
flag to `ABORT_OVER_MAXFILESIZE`, returns 1 and emits no event; when
`dl_total ≤ 0`, `dl_now < 0` or `dl_now > dl_total` the sink instead returns
0 without touching the interrupt flag. -/
theorem C1_maxsize_abort (dlcb : Bool) (interrupted : Nat) (p : Payload)
    (dltotal dlnow : Int)
    (hsig : p.signature = false) (hresp : p.respcode < 300)
    (hint : interrupted = 0)
    (h0 : 0 ≤ dlnow) (h1 : 0 < dltotal) (h2 : dlnow ≤ dltotal)
    (hmax : 0 < p.max_size) (hover : p.max_size < p.initial_size + dlnow) :
    dload_progress_cb dlcb interrupted p dltotal dlnow =
      ⟨1, ABORT_OVER_MAXFILESIZE, p, []⟩ := by
  subst hint
  have hc1 : ¬(p.signature = true) := by simp [hsig]
  have hc2 : ¬(p.respcode ≥ 300) := by omega
  have hc3 : ¬((0 : Nat) ≠ 0) := by simp
  have hc4 : ¬(dlnow < 0 ∨ dltotal ≤ 0 ∨ dlnow > dltotal) := by omega
  have hc5 : p.max_size ≠ 0 ∧ p.initial_size + dlnow > p.max_size :=
    ⟨by omega, by omega⟩
  simp only [dload_progress_cb]
  rw [if_neg hc1, if_neg hc2, if_neg hc3, if_neg hc4, if_pos hc5]

/-- Witness for C1 at concrete inputs. -/
theorem C1_maxsize_abort_witness :
    dload_progress_cb true 0 { respcode := 200, max_size := 3 } 6 5 =
      ⟨1, ABORT_OVER_MAXFILESIZE, { respcode := 200, max_size := 3 }, []⟩ :=
  C1_maxsize_abort true 0 _ 6 5 (by decide) (by decide) rfl (by decide)
    (by decide) (by decide) (by decide) (by decide)

/-- C6: the transfer configurator evaluates the resume/freshness policy in
order: (1) `allow_resume = false`, `force = false` and an existing
destination file set a conditional-GET on the local mtime and no resume
offset, leaving the payload untouched; (2) otherwise an existing tempfile
with `allow_resume = true` sets resume-from to the temp size, switches the
open mode to "ab" and records `initial_size`; (3) otherwise the payload is
untouched (so the caller-installed "wb" mode stands) and neither a time
condition nor a resume offset is set. -/
theorem C6_resume_freshness (fs : Fs) (p : Payload) :
    (∀ st : FileInfo, p.allow_resume = false → p.force = false →
      statOpt fs p.destfile_name = some st →
      (curl_set_handle_opts fs p).2.timecondMtime = some st.mtime ∧
      (curl_set_handle_opts fs p).2.resumeFrom = none ∧
      (curl_set_handle_opts fs p).1 = p) ∧
    (∀ st : FileInfo, p.allow_resume = true →
      statOpt fs p.tempfile_name = some st →
      (curl_set_handle_opts fs p).1.tempfile_openmode = "ab" ∧
      (curl_set_handle_opts fs p).1.initial_size = st.size ∧
      (curl_set_handle_opts fs p).2.resumeFrom = some st.size ∧
      (curl_set_handle_opts fs p).2.timecondMtime = none) ∧
    ((p.allow_resume = true ∨ p.force = true ∨ statOpt fs p.destfile_name = none) →
      (p.allow_resume = false ∨ statOpt fs p.tempfile_name = none) →
      (curl_set_handle_opts fs p).1 = p ∧
      (curl_set_handle_opts fs p).2.resumeFrom = none ∧
      (curl_set_handle_opts fs p).2.timecondMtime = none) := by
  refine ⟨?_, ?_, ?_⟩
  · intro st h1 h2 h3
    have hd := statOpt_isSome h3
    simp [curl_set_handle_opts, h1, h2, h3, hd]
  · intro st h1 h2
    simp [curl_set_handle_opts, h1, h2]
  · intro h1 h2
    rcases h1 with h3 | h3 | h3 <;> rcases h2 with h2 | h2 <;>
      cases hst : statOpt fs p.tempfile_name <;>
      simp_all [curl_set_handle_opts]

/-- Witness for C6: one concrete instance of each of the three policy
branches. -/
theorem C6_resume_freshness_witness :
    ((curl_set_handle_opts (fun s => if s = "/c/a" then some ⟨9, 44⟩ else none)
        { destfile_name := some "/c/a" }).2.timecondMtime = some 44 ∧
     (curl_set_handle_opts (fun s => if s = "/c/a" then some ⟨9, 44⟩ else none)
        { destfile_name := some "/c/a" }).2.resumeFrom = none) ∧
    ((curl_set_handle_opts (fun s => if s = "/c/x.part" then some ⟨20, 7⟩ else none)
        { tempfile_name := some "/c/x.part", allow_resume := true,
          tempfile_openmode := "wb" }).1.tempfile_openmode = "ab" ∧
     (curl_set_handle_opts (fun s => if s = "/c/x.part" then some ⟨20, 7⟩ else none)
        { tempfile_name := some "/c/x.part", allow_resume := true,
          tempfile_openmode := "wb" }).1.initial_size = 20) ∧
    ((curl_set_handle_opts (fun _ => none)
        { tempfile_openmode := "wb" }).1 = { tempfile_openmode := "wb" } ∧
     (curl_set_handle_opts (fun _ => none)
        { tempfile_openmode := "wb" }).2.resumeFrom = none) := by
  refine ⟨?_, ?_, ?_⟩
  · have h := (C6_resume_freshness
      (fun s => if s = "/c/a" then some ⟨9, 44⟩ else none)
      { destfile_name := some "/c/a" }).1 ⟨9, 44⟩ rfl rfl (by decide)
    exact ⟨h.1, h.2.1⟩
  · have h := (C6_resume_freshness
      (fun s => if s = "/c/x.part" then some ⟨20, 7⟩ else none)
      { tempfile_name := some "/c/x.part", allow_resume := true,
        tempfile_openmode := "wb" }).2.1 ⟨20, 7⟩ rfl (by decide)
    exact ⟨h.1, h.2.1⟩
  · have h := (C6_resume_freshness (fun _ => none)
      { tempfile_openmode := "wb" }).2.2 (Or.inr (Or.inr (by decide)))
      (Or.inr (by decide))
    exact ⟨h.1, h.2.1⟩

/-- C8 counterexample: nothing clamps `initial_size` against `max_size`,
contradicting "initial_size <= max_size holds after transfer configuration":
resuming a 20-byte `.part` with `max_size = 10` leaves
`initial_size = 20 > 10 = max_size` after `curl_set_handle_opts`. -/
theorem C8_counterexample :
    0 < (({ tempfile_name := some "/c/x.part", allow_resume := true,
            max_size := 10 } : Payload)).max_size ∧
    ¬((curl_set_handle_opts (fun s => if s = "/c/x.part" then some ⟨20, 7⟩ else none)
        { tempfile_name := some "/c/x.part", allow_resume := true,
          max_size := 10 }).1.initial_size ≤
      (curl_set_handle_opts (fun s => if s = "/c/x.part" then some ⟨20, 7⟩ else none)
        { tempfile_name := some "/c/x.part", allow_resume := true,
          max_size := 10 }).1.max_size) := by
  decide

/-- C8 (amended): transfer configuration does not clamp `initial_size`: a
resume sets it to the on-disk `.part` size even when that exceeds
`max_size`, and it is unchanged when `allow_resume` is false; what does hold
is the completion short-circuit: whenever `max_size = initial_size` and
`max_size` is non-zero after configuration, the single-transfer driver
returns 0 without performing any transfer and the parallel driver returns 0
without adding the handle to the multiplexer. -/
theorem C8_maxsize_shortcircuit :
    (∀ (fs : Fs) (p : Payload) (st : FileInfo), p.allow_resume = true →
      statOpt fs p.tempfile_name = some st →
      (curl_set_handle_opts fs p).1.initial_size = st.size) ∧
    (∀ (fs : Fs) (p : Payload), p.allow_resume = false →
      (curl_set_handle_opts fs p).1.initial_size = p.initial_size) ∧
    (∀ (env : CurlEnv) (lp : String) (p : Payload) (lo : Bool) (pe : AlpmErr),
      (curl_set_handle_opts env.fs p).1.max_size =
        (curl_set_handle_opts env.fs p).1.initial_size →
      (curl_set_handle_opts env.fs p).1.max_size ≠ 0 →
      env.renameOk = true →
      (curl_download_transfer env lp p lo pe).result = 0 ∧
      (curl_download_transfer env lp p lo pe).performed = false) ∧
    (∀ (env : MultiEnv) (pe : AlpmErr) (p : Payload),
      (curl_set_handle_opts env.fs p).1.max_size =
        (curl_set_handle_opts env.fs p).1.initial_size →
      (curl_set_handle_opts env.fs p).1.max_size ≠ 0 →
      (curl_multi_add_finish env pe p).result = 0 ∧
      (curl_multi_add_finish env pe p).added = false) := by
  refine ⟨?_, ?_, ?_, ?_⟩
  · intro fs p st h1 h2
    simp [curl_set_handle_opts, h1, h2]
  · intro fs p h
    by_cases hcond : (!p.allow_resume && !p.force && p.destfile_name.isSome &&
        (statOpt fs p.destfile_name).isSome) = true
    · simp [curl_set_handle_opts, hcond]
    · cases hst : statOpt fs p.tempfile_name <;>
        simp [curl_set_handle_opts, hcond, hst, h] <;>
        split <;> rfl
  · intro env lp p lo pe h1 h2 hren
    simp only [curl_download_transfer]
    rw [if_pos ⟨h1, h2⟩]
    exact ⟨curl_download_cleanup_ret0 _ rfl hren, rfl⟩
  · intro env pe p h1 h2
    simp only [curl_multi_add_finish]
    rw [if_pos ⟨h1, h2⟩]
    exact ⟨rfl, rfl⟩

/-- Witness for C8: the resume case and both short-circuit cases at concrete
inputs. -/
theorem C8_maxsize_shortcircuit_witness :
    (curl_set_handle_opts (fun s => if s = "/c/x.part" then some ⟨20, 7⟩ else none)
      { tempfile_name := some "/c/x.part", allow_resume := true,
        max_size := 10 }).1.initial_size = 20 ∧
    (curl_download_transfer
      { fs := fun s => if s = "/c/y.part" then some ⟨16384, 7⟩ else none }
      "/c/" { tempfile_name := some "/c/y.part", destfile_name := some "/c/y",
              allow_resume := true, max_size := 16384 } false AlpmErr.ok).performed
      = false ∧
    (curl_multi_add_finish
      { fs := fun s => if s = "/c/y.part" then some ⟨16384, 7⟩ else none }
      AlpmErr.ok { tempfile_name := some "/c/y.part",
                   destfile_name := some "/c/y", allow_resume := true,
                   max_size := 16384 }).added = false := by
  refine ⟨?_, ?_, ?_⟩
  · exact C8_maxsize_shortcircuit.1
      (fun s => if s = "/c/x.part" then some ⟨20, 7⟩ else none) _ ⟨20, 7⟩ rfl
      (by decide)
  · exact (C8_maxsize_shortcircuit.2.2.1
      { fs := fun s => if s = "/c/y.part" then some ⟨16384, 7⟩ else none }
      "/c/" _ false AlpmErr.ok (by decide) (by decide) rfl).2
  · exact (C8_maxsize_shortcircuit.2.2.2
      { fs := fun s => if s = "/c/y.part" then some ⟨16384, 7⟩ else none }
      AlpmErr.ok _ (by decide) (by decide)).2

/-- C5: on a cache miss, when the package download succeeds with an
effective URL and `ALPM_SIG_PACKAGE` is set and the `.sig` sibling is not
cached, `alpm_fetch_pkgurl` hands `_alpm_download` exactly two payloads: the
package payload (`allow_resume, trust_remote_name`) and then a signature
payload for `<effective_url>.sig` with `force = 1`, `signature = 1`,
`trust_remote_name = 1`, `max_size = 16 KiB` and `errors_ok` equal to the
`ALPM_SIG_PACKAGE_OPTIONAL` bit; the returned path is the cache lookup of
the package's `final_file`, independent of the signature download's outcome
(a failed required signature only logs a warning). -/
theorem C5_sig_payload (env : FetchEnv) (url u : String) (ff : Option String)
    (hmiss : filecache_find_url env.cache url = none)
    (hdl : env.download
        { fileurl := some url, allow_resume := true, trust_remote_name := true } =
      { ret := 0, final_file := ff, final_url := some u })
    (hsig : env.sig_package = true)
    (hsigmiss : filecache_find_url env.cache (u ++ ".sig") = none) :
    (alpm_fetch_pkgurl env url).downloads =
      [{ fileurl := some url, allow_resume := true, trust_remote_name := true },
       { fileurl := some (u ++ ".sig"), signature := true,
         trust_remote_name := true, force := true,
         errors_ok := env.sig_package_optional, max_size := 16 * 1024 }] ∧
    (alpm_fetch_pkgurl env url).result = ff.bind env.cache := by
  unfold alpm_fetch_pkgurl
  rw [hmiss]
  simp only [hdl, alpm_fetch_pkgurl_sig, hsig, hsigmiss]
  norm_num

/-- Witness for C5 at a concrete environment. -/
theorem C5_sig_payload_witness :
    (alpm_fetch_pkgurl
      { cache := fun s => if s = "real.pkg" then some "/c/real.pkg" else none,
        download := fun _ =>
          { ret := 0, final_file := some "real.pkg",
            final_url := some "https://m2/real.pkg" },
        sig_package := true, sig_package_optional := false }
      "https://m/p.pkg").downloads =
      [{ fileurl := some "https://m/p.pkg", allow_resume := true,
         trust_remote_name := true },
       { fileurl := some "https://m2/real.pkg.sig", signature := true,
         trust_remote_name := true, force := true, errors_ok := false,
         max_size := 16 * 1024 }] ∧
    (alpm_fetch_pkgurl
      { cache := fun s => if s = "real.pkg" then some "/c/real.pkg" else none,
        download := fun _ =>
          { ret := 0, final_file := some "real.pkg",
            final_url := some "https://m2/real.pkg" },
        sig_package := true, sig_package_optional := false }
      "https://m/p.pkg").result = some "/c/real.pkg" := by
  have h := C5_sig_payload
    { cache := fun s => if s = "real.pkg" then some "/c/real.pkg" else none,
      download := fun _ =>
        { ret := 0, final_file := some "real.pkg",
          final_url := some "https://m2/real.pkg" },
      sig_package := true, sig_package_optional := false }
    "https://m/p.pkg" "https://m2/real.pkg" (some "real.pkg")
    (by decide) rfl rfl (by decide)
  exact ⟨h.1, h.2.trans (by decide)⟩

theorem curl_multi_retry_next_server_retry (ok : Bool) (p : Payload)
    (next : String) (rest : List String)
    (htail : p.servers.tail = next :: rest) (hok : ok = true) :
    (curl_multi_retry_next_server ok p).result = 0 ∧
    (curl_multi_retry_next_server ok p).payload.fileurl =
      some (next ++ "/" ++ p.filepath.getD "") ∧
    (curl_multi_retry_next_server ok p).payload.servers = p.servers.tail ∧
    (curl_multi_retry_next_server ok p).readded = true ∧
    (curl_multi_retry_next_server ok p).pmErr = none ∧
    (p.unlink_on_fail = true →
      (curl_multi_retry_next_server ok p).actions =
        [FsAction.truncateLocal, FsAction.rewindLocal]) := by
  subst hok
  rcases hs : p.servers with _ | ⟨a, tl⟩
  · rw [hs] at htail; simp at htail
  · rw [hs] at htail
    simp only [List.tail_cons] at htail
    subst htail
    by_cases hu : p.unlink_on_fail = true <;>
      simp [curl_multi_retry_next_server, hs, hu]

theorem curl_multi_retry_next_server_exhausted (ok : Bool) (p : Payload)
    (htail : p.servers.tail = []) :
    (curl_multi_retry_next_server ok p).result = -1 ∧
    (curl_multi_retry_next_server ok p).pmErr = none := by
  rcases hs : p.servers with _ | ⟨a, _ | ⟨b, r⟩⟩
  · simp [curl_multi_retry_next_server, hs]
  · simp [curl_multi_retry_next_server, hs]
  · rw [hs] at htail; simp at htail

theorem curl_multi_retry_pmErr_none (p : Payload) :
    (curl_multi_retry_next_server true p).pmErr = none := by
  rcases hs : p.servers with _ | ⟨a, _ | ⟨b, r⟩⟩ <;>
    (simp [curl_multi_retry_next_server, hs]; repeat' split) <;> rfl

theorem cmcfd_cleanup_result_errors_ok (env : MultiEnv) (p : Payload) (r : Int)
    (pe : AlpmErr) (b t : Int) (evs : List Event) (acts : List FsAction)
    (h : p.errors_ok = true) :
    (cmcfd_cleanup env p r pe b t evs acts).result ≠ -1 := by
  unfold cmcfd_cleanup
  repeat' split
  all_goals simp_all
  all_goals repeat' split
  all_goals simp_all

theorem cmcfd_retry_or_cleanup_result_errors_ok (env : MultiEnv) (p : Payload)
    (pe : AlpmErr) (h : p.errors_ok = true) :
    (cmcfd_retry_or_cleanup env p pe).result ≠ -1 := by
  simp only [cmcfd_retry_or_cleanup]
  obtain ⟨u, hu⟩ := curl_multi_retry_next_server_shape env.ftruncateOk p
  split
  · simp
  · apply cmcfd_cleanup_result_errors_ok
    rw [hu]
    exact h

theorem cmcfd_proceed_result_errors_ok (env : MultiEnv) (lp : String)
    (pe : AlpmErr) (p : Payload) (h : p.errors_ok = true) :
    (cmcfd_proceed env lp pe p).result ≠ -1 := by
  simp only [cmcfd_proceed]
  obtain ⟨d, hd⟩ := remote_name_refactor_shape lp env.info.effective_url p
  repeat' split
  all_goals apply cmcfd_cleanup_result_errors_ok
  all_goals first
    | exact h
    | (rw [hd]; exact h)

theorem cmcfd_retry_or_cleanup_pmErr (env : MultiEnv) (p : Payload) (pe : AlpmErr)
    (htr : env.ftruncateOk = true) :
    (cmcfd_retry_or_cleanup env p pe).pmErr = pe := by
  simp only [cmcfd_retry_or_cleanup]
  have hp : (curl_multi_retry_next_server env.ftruncateOk p).pmErr = none := by
    rw [htr]; exact curl_multi_retry_pmErr_none p
  split
  · simp [hp]
  · rw [cmcfd_cleanup_pmErr, hp]; rfl

theorem cmcfd_retry_or_cleanup_servers (env : MultiEnv) (p : Payload) (pe : AlpmErr) :
    (cmcfd_retry_or_cleanup env p pe).payload.servers = p.servers.tail := by
  simp only [cmcfd_retry_or_cleanup]
  obtain ⟨u, hu⟩ := curl_multi_retry_next_server_shape env.ftruncateOk p
  split
  · rw [hu]
  · rw [cmcfd_cleanup_payload, hu]

theorem cmcfd_retry_or_cleanup_retry (env : MultiEnv) (p : Payload) (pe : AlpmErr)
    (next : String) (rest : List String)
    (htr : env.ftruncateOk = true) (htail : p.servers.tail = next :: rest) :
    (cmcfd_retry_or_cleanup env p pe).result = 2 ∧
    (cmcfd_retry_or_cleanup env p pe).payload.fileurl =
      some (next ++ "/" ++ p.filepath.getD "") ∧
    (cmcfd_retry_or_cleanup env p pe).payload.servers = p.servers.tail ∧
    (cmcfd_retry_or_cleanup env p pe).readded = true ∧
    (p.unlink_on_fail = true →
      (cmcfd_retry_or_cleanup env p pe).actions =
        [FsAction.truncateLocal, FsAction.rewindLocal]) := by
  have hr := curl_multi_retry_next_server_retry env.ftruncateOk p next rest htail htr
  simp only [cmcfd_retry_or_cleanup]
  rw [if_pos hr.1]
  exact ⟨rfl, hr.2.1, hr.2.2.1, hr.2.2.2.1, hr.2.2.2.2.2⟩

/-- C2: the servers cursor of a payload only ever advances — one call of the
completion check leaves it unchanged or moves it to the tail of the list, so
across a top-level invocation a payload never returns to an earlier mirror —
and on a failover-eligible error (HTTP response >= 400 on CURLE_OK,
host-resolution failure, or a generic transport error) with another mirror
remaining (and `ftruncate` succeeding), the completion check returns 2
("retry in progress"), rebuilds `fileurl` as `<next server>/<file_path>`,
re-adds the handle to the multiplexer, and truncates and rewinds the temp
stream when `unlink_on_fail` is set. -/
theorem C2_mirror_failover (env : MultiEnv) (lp : String) (pe : AlpmErr)
    (curlerr : CURLcode) (p : Payload) :
    ((curl_multi_check_finished_download env lp pe curlerr p).payload.servers =
        p.servers ∨
      (curl_multi_check_finished_download env lp pe curlerr p).payload.servers =
        p.servers.tail) ∧
    (∀ next rest,
      ((curlerr = CURLcode.ok ∧ p.respcode ≥ 400) ∨
        curlerr = CURLcode.couldntResolveHost ∨ curlerr = CURLcode.otherError) →
      env.ftruncateOk = true → p.servers.tail = next :: rest →
      (curl_multi_check_finished_download env lp pe curlerr p).result = 2 ∧
      (curl_multi_check_finished_download env lp pe curlerr p).payload.fileurl =
        some (next ++ "/" ++ p.filepath.getD "") ∧
      (curl_multi_check_finished_download env lp pe curlerr p).payload.servers =
        p.servers.tail ∧
      (curl_multi_check_finished_download env lp pe curlerr p).readded = true ∧
      (p.unlink_on_fail = true →
        FsAction.truncateLocal ∈
          (curl_multi_check_finished_download env lp pe curlerr p).actions ∧
        FsAction.rewindLocal ∈
          (curl_multi_check_finished_download env lp pe curlerr p).actions)) := by
  constructor
  · cases curlerr <;> simp only [curl_multi_check_finished_download]
    · -- CURLE_OK
      split
      · exact Or.inr (cmcfd_retry_or_cleanup_servers env _ _)
      · simp only [cmcfd_proceed]
        obtain ⟨d, hd⟩ := remote_name_refactor_shape lp env.info.effective_url p
        repeat' split
        all_goals rw [cmcfd_cleanup_payload]
        · exact Or.inl rfl
        · exact Or.inl rfl
        · rw [hd]; exact Or.inl rfl
    · -- aborted by callback
      split
      all_goals rw [cmcfd_cleanup_payload]
      all_goals exact Or.inl rfl
    · -- could not resolve host
      exact Or.inr (cmcfd_retry_or_cleanup_servers env _ _)
    · -- CURLE_FILESIZE_EXCEEDED (default branch)
      split
      all_goals exact Or.inr (cmcfd_retry_or_cleanup_servers env _ _)
    · -- other transport error (default branch)
      split
      all_goals exact Or.inr (cmcfd_retry_or_cleanup_servers env _ _)
  · intro next rest helig htr htail
    rcases helig with ⟨hcurl, hresp⟩ | hcurl | hcurl
    · subst hcurl
      simp only [curl_multi_check_finished_download]
      rw [if_pos hresp]
      have h := cmcfd_retry_or_cleanup_retry env { p with unlink_on_fail := true }
        (if !({ p with unlink_on_fail := true } : Payload).errors_ok then
          AlpmErr.retrieve else pe) next rest htr htail
      refine ⟨h.1, h.2.1, h.2.2.1, h.2.2.2.1, fun _ => ?_⟩
      have ha := h.2.2.2.2 rfl
      rw [ha]
      exact ⟨by simp, by simp⟩
    · subst hcurl
      simp only [curl_multi_check_finished_download]
      have h := cmcfd_retry_or_cleanup_retry env { p with unlink_on_fail := true }
        AlpmErr.server_bad_url next rest htr htail
      refine ⟨h.1, h.2.1, h.2.2.1, h.2.2.2.1, fun _ => ?_⟩
      have ha := h.2.2.2.2 rfl
      rw [ha]
      exact ⟨by simp, by simp⟩
    · subst hcurl
      simp only [curl_multi_check_finished_download]
      split
      · have h := cmcfd_retry_or_cleanup_retry env { p with unlink_on_fail := true }
          (if !({ p with unlink_on_fail := true } : Payload).errors_ok then
            AlpmErr.libcurl else pe) next rest htr htail
        refine ⟨h.1, h.2.1, h.2.2.1, h.2.2.2.1, fun _ => ?_⟩
        have ha := h.2.2.2.2 rfl
        rw [ha]
        exact ⟨by simp, by simp⟩
      · have h := cmcfd_retry_or_cleanup_retry env p
          (if !p.errors_ok then AlpmErr.libcurl else pe) next rest htr htail
        refine ⟨h.1, h.2.1, h.2.2.1, h.2.2.2.1, fun hu => ?_⟩
        have ha := h.2.2.2.2 hu
        rw [ha]
        exact ⟨by simp, by simp⟩

/-- Witness for C2 at a concrete failed-over transfer: server `a` answered
404 and mirror `b` remains. -/
theorem C2_mirror_failover_witness :
    (curl_multi_check_finished_download {} "/c/" AlpmErr.ok CURLcode.ok
      { servers := ["https://a", "https://b"], filepath := some "core.db",
        remote_name := some "core.db", respcode := 404 }).result = 2 ∧
    (curl_multi_check_finished_download {} "/c/" AlpmErr.ok CURLcode.ok
      { servers := ["https://a", "https://b"], filepath := some "core.db",
        remote_name := some "core.db", respcode := 404 }).payload.fileurl =
      some "https://b/core.db" ∧
    (curl_multi_check_finished_download {} "/c/" AlpmErr.ok CURLcode.ok
      { servers := ["https://a", "https://b"], filepath := some "core.db",
        remote_name := some "core.db", respcode := 404 }).readded = true := by
  have h := (C2_mirror_failover {} "/c/" AlpmErr.ok CURLcode.ok
    { servers := ["https://a", "https://b"], filepath := some "core.db",
      remote_name := some "core.db", respcode := 404 }).2 "https://b" []
    (Or.inl ⟨rfl, by decide⟩) rfl (by decide)
  exact ⟨h.1, h.2.1.trans (by decide), h.2.2.2.1⟩

/-- C4 counterexample: an optional payload (`errors_ok = 1`) whose transfer
fails with a host-resolution error and no mirror left does set
`handle->pm_errno` (to `ALPM_ERR_SERVER_BAD_URL`, written before the retry
is even attempted), contradicting "pm_errno remains untouched by that
payload's failures"; the terminal return is -2 as the claim says. -/
theorem C4_counterexample :
    (({ servers := ["https://a"], filepath := some "core.db",
        remote_name := some "core.db", errors_ok := true } : Payload).errors_ok
      = true) ∧
    (curl_multi_check_finished_download {} "/c/" AlpmErr.ok
      CURLcode.couldntResolveHost
      { servers := ["https://a"], filepath := some "core.db",
        remote_name := some "core.db", errors_ok := true }).pmErr ≠ AlpmErr.ok ∧
    (curl_multi_check_finished_download {} "/c/" AlpmErr.ok
      CURLcode.couldntResolveHost
      { servers := ["https://a"], filepath := some "core.db",
        remote_name := some "core.db", errors_ok := true }).result = -2 := by
  decide

/-- C4 (amended): in the parallel completion handler, `errors_ok` suppresses
the handle-error write only for HTTP >= 400 responses and generic transport
errors (given `ftruncate` succeeds on a retry attempt); host-resolution
failures, over-max-size aborts and truncation mismatches still set
`pm_errno` even for optional payloads; and a terminal failure of an
optional payload is returned as -2 — the handler never returns -1 for a
payload with `errors_ok = true`. -/
theorem C4_errors_ok (env : MultiEnv) (lp : String) (pe : AlpmErr)
    (curlerr : CURLcode) (p : Payload) :
    (p.errors_ok = true →
      (curl_multi_check_finished_download env lp pe curlerr p).result ≠ -1) ∧
    (p.errors_ok = true → curlerr = CURLcode.ok → p.respcode ≥ 400 →
      env.ftruncateOk = true →
      (curl_multi_check_finished_download env lp pe curlerr p).pmErr = pe) ∧
    (p.errors_ok = true → curlerr = CURLcode.otherError →
      env.ftruncateOk = true →
      (curl_multi_check_finished_download env lp pe curlerr p).pmErr = pe) := by
  refine ⟨?_, ?_, ?_⟩
  · intro h
    cases curlerr <;> simp only [curl_multi_check_finished_download]
    · split
      · exact cmcfd_retry_or_cleanup_result_errors_ok env _ _ h
      · exact cmcfd_proceed_result_errors_ok env lp _ _ h
    · split
      all_goals exact cmcfd_cleanup_result_errors_ok env _ _ _ _ _ _ _ h
    · exact cmcfd_retry_or_cleanup_result_errors_ok env _ _ h
    · split
      all_goals exact cmcfd_retry_or_cleanup_result_errors_ok env _ _ h
    · split
      all_goals exact cmcfd_retry_or_cleanup_result_errors_ok env _ _ h
  · intro h hcurl hresp htr
    subst hcurl
    simp only [curl_multi_check_finished_download]
    rw [if_pos hresp]
    rw [cmcfd_retry_or_cleanup_pmErr env _ _ htr]
    simp [h]
  · intro h hcurl htr
    subst hcurl
    simp only [curl_multi_check_finished_download]
    split
    all_goals rw [cmcfd_retry_or_cleanup_pmErr env _ _ htr]
    all_goals simp [h]

/-- Witness for C4: the 404 case of an optional payload leaves `pm_errno`
alone and returns a non-fatal code. -/
theorem C4_errors_ok_witness :
    (curl_multi_check_finished_download {} "/c/" AlpmErr.ok CURLcode.ok
      { servers := ["https://a"], filepath := some "core.db",
        remote_name := some "core.db", respcode := 404, errors_ok := true }).result
      ≠ -1 ∧
    (curl_multi_check_finished_download {} "/c/" AlpmErr.ok CURLcode.ok
      { servers := ["https://a"], filepath := some "core.db",
        remote_name := some "core.db", respcode := 404, errors_ok := true }).pmErr
      = AlpmErr.ok := by
  have h := C4_errors_ok {} "/c/" AlpmErr.ok CURLcode.ok
    { servers := ["https://a"], filepath := some "core.db",
      remote_name := some "core.db", respcode := 404, errors_ok := true }
  exact ⟨h.1 rfl, h.2.1 rfl rfl (by decide) rfl⟩

theorem cmcfd_cleanup_ret1 (env : MultiEnv) (p : Payload) (pe : AlpmErr)
    (b t : Int) (evs : List Event) (acts : List FsAction) :
    (cmcfd_cleanup env p 1 pe b t evs acts).result = 1 := by
  simp [cmcfd_cleanup]

theorem cmcfd_cleanup_unlink_kept (env : MultiEnv) (p : Payload) (r : Int)
    (pe : AlpmErr) (b t : Int) (evs : List Event) (acts : List FsAction)
    (f : String) (hacts : FsAction.unlinkFile f ∈ acts) :
    FsAction.unlinkFile f ∈ (cmcfd_cleanup env p r pe b t evs acts).actions := by
  unfold cmcfd_cleanup
  cases htn : p.tempfile_name
  all_goals repeat' split
  all_goals simp_all [List.mem_append, list_mem_ite]

theorem cmcfd_cleanup_no_rename (env : MultiEnv) (p : Payload) (r : Int)
    (pe : AlpmErr) (b t : Int) (evs : List Event) (acts : List FsAction)
    (s d : String) (hr : r = 1) (hacts : FsAction.renameFile s d ∉ acts) :
    FsAction.renameFile s d ∉ (cmcfd_cleanup env p r pe b t evs acts).actions := by
  have hut := utimes_long_no_rename p.tempfile_name t s d
  unfold cmcfd_cleanup
  repeat' split
  all_goals simp_all [List.mem_append, list_mem_ite]

/-- C7: in both drivers, a transport-successful transfer whose time
condition was unmet (`CURLINFO_CONDITION_UNMET = 1`) with zero bytes
downloaded unlinks the `.part` tempfile, returns 1 ("up-to-date"), and
performs no rename, so the existing `dest_file_name` is left untouched. -/
theorem C7_up_to_date :
    (∀ (env : CurlEnv) (lp : String) (p : Payload) (lo : Bool) (pe : AlpmErr)
      (t : String),
      env.performResult = CURLcode.ok → env.respcodeAfter < 400 →
      env.info.timecond = 1 → env.info.bytes_dl = 0 → env.fopenOk = true →
      ¬((curl_set_handle_opts env.fs p).1.max_size =
          (curl_set_handle_opts env.fs p).1.initial_size ∧
        (curl_set_handle_opts env.fs p).1.max_size ≠ 0) →
      p.tempfile_name = some t →
      (curl_download_transfer env lp p lo pe).result = 1 ∧
      FsAction.unlinkFile t ∈ (curl_download_transfer env lp p lo pe).actions ∧
      (∀ s d, FsAction.renameFile s d ∉
        (curl_download_transfer env lp p lo pe).actions)) ∧
    (∀ (env : MultiEnv) (lp : String) (pe : AlpmErr) (p : Payload) (t : String),
      p.respcode < 400 → env.info.timecond = 1 → env.info.bytes_dl = 0 →
      p.tempfile_name = some t →
      (curl_multi_check_finished_download env lp pe CURLcode.ok p).result = 1 ∧
      FsAction.unlinkFile t ∈
        (curl_multi_check_finished_download env lp pe CURLcode.ok p).actions ∧
      (∀ s d, FsAction.renameFile s d ∉
        (curl_multi_check_finished_download env lp pe CURLcode.ok p).actions)) := by
  constructor
  · intro env lp p lo pe t hperf hresp htime hbytes hfo hsc htemp
    obtain ⟨m, i, hopts⟩ := curl_set_handle_opts_shape env.fs p
    simp only [curl_download_transfer]
    rw [if_neg hsc]
    rw [if_neg (by simp [hfo] : ¬((!lo && !env.fopenOk) = true))]
    simp only [hperf]
    rw [if_neg (by simp; omega)]
    rw [if_pos ⟨htime, hbytes⟩]
    refine ⟨curl_download_cleanup_ret1 _ rfl, ?_, ?_⟩
    · apply curl_download_cleanup_unlink_kept
      simp [hopts, htemp]
    · intro s d
      apply curl_download_cleanup_no_rename _ s d rfl
      simp
  · intro env lp pe p t hresp htime hbytes htemp
    simp only [curl_multi_check_finished_download]
    rw [if_neg (by omega)]
    simp only [cmcfd_proceed]
    rw [if_pos ⟨htime, hbytes⟩]
    refine ⟨cmcfd_cleanup_ret1 _ _ _ _ _ _ _, ?_, ?_⟩
    · apply cmcfd_cleanup_unlink_kept
      simp [htemp]
    · intro s d
      apply cmcfd_cleanup_no_rename _ _ _ _ _ _ _ _ s d rfl
      simp

/-- Witness for C7: both drivers at a concrete up-to-date transfer. -/
theorem C7_up_to_date_witness :
    ((curl_download_transfer
      { fs := fun _ => none, respcodeAfter := 304,
        info := { timecond := 1, bytes_dl := 0 } }
      "/c/" { tempfile_name := some "/c/core.db.part",
              destfile_name := some "/c/core.db",
              remote_name := some "core.db" } false AlpmErr.ok).result = 1 ∧
     FsAction.unlinkFile "/c/core.db.part" ∈
      (curl_download_transfer
        { fs := fun _ => none, respcodeAfter := 304,
          info := { timecond := 1, bytes_dl := 0 } }
        "/c/" { tempfile_name := some "/c/core.db.part",
                destfile_name := some "/c/core.db",
                remote_name := some "core.db" } false AlpmErr.ok).actions) ∧
    ((curl_multi_check_finished_download
      { info := { timecond := 1, bytes_dl := 0 } } "/c/" AlpmErr.ok CURLcode.ok
      { tempfile_name := some "/c/core.db.part",
        destfile_name := some "/c/core.db", remote_name := some "core.db",
        respcode := 304, localf := true }).result = 1 ∧
     (∀ s d, FsAction.renameFile s d ∉
      (curl_multi_check_finished_download
        { info := { timecond := 1, bytes_dl := 0 } } "/c/" AlpmErr.ok CURLcode.ok
        { tempfile_name := some "/c/core.db.part",
          destfile_name := some "/c/core.db", remote_name := some "core.db",
          respcode := 304, localf := true }).actions)) := by
  constructor
  · have h := C7_up_to_date.1
      { fs := fun _ => none, respcodeAfter := 304,
        info := { timecond := 1, bytes_dl := 0 } }
      "/c/" { tempfile_name := some "/c/core.db.part",
              destfile_name := some "/c/core.db",
              remote_name := some "core.db" } false AlpmErr.ok "/c/core.db.part"
      rfl (by decide) rfl rfl rfl (by decide) rfl
    exact ⟨h.1, h.2.1⟩
  · have h := C7_up_to_date.2
      { info := { timecond := 1, bytes_dl := 0 } } "/c/" AlpmErr.ok
      { tempfile_name := some "/c/core.db.part",
        destfile_name := some "/c/core.db", remote_name := some "core.db",
        respcode := 304, localf := true } "/c/core.db.part"
      (by decide) rfl rfl rfl
    exact ⟨h.1, h.2.2⟩

theorem curl_download_cleanup_emits (c : CleanupIn) :
    ∃ n tot r, Event.evCompleted n tot r ∈ (curl_download_cleanup c).events := by
  unfold curl_download_cleanup
  exact ⟨_, _, _, List.mem_append_right _ (List.mem_singleton_self _)⟩

theorem curl_download_transfer_emits (env : CurlEnv) (lp : String) (p : Payload)
    (lo : Bool) (pe : AlpmErr) :
    ∃ n tot r, Event.evCompleted n tot r ∈
      (curl_download_transfer env lp p lo pe).events := by
  simp only [curl_download_transfer]
  repeat' split
  all_goals exact curl_download_cleanup_emits _

theorem cmcfd_cleanup_events_sig (env : MultiEnv) (p : Payload) (r : Int)
    (pe : AlpmErr) (b t : Int) (acts : List FsAction) (h : p.signature = true) :
    (cmcfd_cleanup env p r pe b t [] acts).events = [] := by
  unfold cmcfd_cleanup
  simp [h]

theorem cmcfd_retry_or_cleanup_events_sig (env : MultiEnv) (p : Payload)
    (pe : AlpmErr) (h : p.signature = true) :
    (cmcfd_retry_or_cleanup env p pe).events = [] := by
  simp only [cmcfd_retry_or_cleanup]
  obtain ⟨u, hu⟩ := curl_multi_retry_next_server_shape env.ftruncateOk p
  split
  · rfl
  · apply cmcfd_cleanup_events_sig
    rw [hu]
    exact h

theorem cmcfd_proceed_events_sig (env : MultiEnv) (lp : String) (pe : AlpmErr)
    (p : Payload) (h : p.signature = true) :
    (cmcfd_proceed env lp pe p).events = [] := by
  simp only [cmcfd_proceed]
  obtain ⟨d, hd⟩ := remote_name_refactor_shape lp env.info.effective_url p
  repeat' split
  all_goals apply cmcfd_cleanup_events_sig
  all_goals first
    | exact h
    | (rw [hd]; exact h)

theorem curl_download_internal_emits (env : CurlEnv) (lp : String) (p : Payload)
    (hg : curl_gethost (p.fileurl.getD "") ≠ none) :
    ∃ n tot r, Event.evCompleted n tot r ∈
      (curl_download_internal env lp p).events := by
  cases hrn : p.remote_name with
  | none =>
    simp only [curl_download_internal, hrn]
    cases hG : curl_gethost (p.fileurl.getD "") with
    | none => exact absurd hG hg
    | some hh =>
      simp only [hG]
      repeat' split
      all_goals first
        | exact curl_download_transfer_emits _ _ _ _ _
        | exact curl_download_cleanup_emits _
  | some rn =>
    simp only [curl_download_internal, hrn]
    cases hG : curl_gethost (p.fileurl.getD "") with
    | none => exact absurd hG hg
    | some hh =>
      simp only [hG]
      repeat' split
      all_goals first
        | exact curl_download_transfer_emits _ _ _ _ _
        | exact curl_download_cleanup_emits _

/-- C3 counterexample: the single-transfer driver has no signature check
around its DOWNLOAD_COMPLETED callback (nor around DOWNLOAD_INIT), so a
successful run for a payload with `signature = 1` does emit a COMPLETED
event, contradicting "no COMPLETED event is emitted ... the single-transfer
driver ... skip[s] the DOWNLOAD_COMPLETED callback". -/
theorem C3_counterexample :
    (({ fileurl := some "https://m/p.sig", signature := true } : Payload).signature
      = true) ∧
    Event.evCompleted "p.sig" 7 0 ∈
      (curl_download_internal
        { fs := fun _ => none, respcodeAfter := 200,
          info := { remote_time := 9, remote_size := 7, bytes_dl := 7,
                    effective_url := "https://m/p.sig" } }
        "/c/" { fileurl := some "https://m/p.sig", signature := true }).events := by
  decide

/-- C3 (amended): for a payload with `signature = true` the progress sink
returns 0 immediately, emitting nothing and leaving the payload and the
interrupt flag alone, and the parallel completion handler emits no event at
all; the single-transfer driver, however, emits DOWNLOAD_COMPLETED even for
signature payloads on every run whose URL passes host validation. -/
theorem C3_signature_events :
    (∀ (dlcb : Bool) (intr : Nat) (p : Payload) (dltotal dlnow : Int),
      p.signature = true →
      dload_progress_cb dlcb intr p dltotal dlnow = ⟨0, intr, p, []⟩) ∧
    (∀ (env : MultiEnv) (lp : String) (pe : AlpmErr) (curlerr : CURLcode)
      (p : Payload), p.signature = true →
      (curl_multi_check_finished_download env lp pe curlerr p).events = []) ∧
    (∀ (env : CurlEnv) (lp : String) (p : Payload), p.signature = true →
      curl_gethost (p.fileurl.getD "") ≠ none →
      ∃ n tot r, Event.evCompleted n tot r ∈
        (curl_download_internal env lp p).events) := by
  refine ⟨?_, ?_, ?_⟩
  · intro dlcb intr p dltotal dlnow h
    simp [dload_progress_cb, h]
  · intro env lp pe curlerr p h
    cases curlerr <;> simp only [curl_multi_check_finished_download]
    · split
      · exact cmcfd_retry_or_cleanup_events_sig env _ _ h
      · exact cmcfd_proceed_events_sig env lp _ _ h
    · split
      all_goals exact cmcfd_cleanup_events_sig env _ _ _ _ _ _ h
    · exact cmcfd_retry_or_cleanup_events_sig env _ _ h
    · split
      all_goals exact cmcfd_retry_or_cleanup_events_sig env _ _ h
    · split
      all_goals exact cmcfd_retry_or_cleanup_events_sig env _ _ h
  · intro env lp p _ hg
    exact curl_download_internal_emits env lp p hg

/-- Witness for C3: the three amended statements at concrete inputs. -/
theorem C3_signature_events_witness :
    dload_progress_cb true 0 { signature := true, respcode := 200 } 10 5 =
      ⟨0, 0, { signature := true, respcode := 200 }, []⟩ ∧
    (curl_multi_check_finished_download {} "/c/" AlpmErr.ok CURLcode.ok
      { fileurl := some "https://m/p.sig", remote_name := some "p.sig",
        tempfile_name := some "/c/p.sig.part",
        destfile_name := some "/c/p.sig", signature := true }).events = [] ∧
    (∃ n tot r, Event.evCompleted n tot r ∈
      (curl_download_internal
        { fs := fun _ => none, respcodeAfter := 200,
          info := { remote_time := 9, remote_size := 7, bytes_dl := 7,
                    effective_url := "https://m/p.sig" } }
        "/c/" { fileurl := some "https://m/p.sig", signature := true }).events) := by
  refine ⟨?_, ?_, ?_⟩
  · exact C3_signature_events.1 true 0 _ 10 5 rfl
  · exact C3_signature_events.2.1 {} "/c/" AlpmErr.ok CURLcode.ok _ rfl
  · exact C3_signature_events.2.2
      { fs := fun _ => none, respcodeAfter := 200,
        info := { remote_time := 9, remote_size := 7, bytes_dl := 7,
                  effective_url := "https://m/p.sig" } }
      "/c/" { fileurl := some "https://m/p.sig", signature := true } rfl
      (by decide)
